import Mathlib

/-!
Verification of the numibank loan-ledger core (bank.py, models.py,
numibank_validators.py, numibank_exceptions.py) against its specification.

Python `Decimal` values are embedded as `ℚ` (the spec mandates exact decimal
arithmetic; every amount occurring here is exactly representable). A raised
exception is embedded as the `.error` branch of `Except BankError _`; the
distinct Python exception classes become the constructors of `BankError`,
including Python's builtin `ValueError`, which `numibank_validators.py`
raises. A failed call returns only the error, so in this functional
embedding nothing of the pre-state is modified on failure, matching Python
code that raises before any mutation.
-/

namespace Numibank

/-- Error taxonomy of numibank_exceptions.py, each constructor carrying its
message, together with Python's builtin `ValueError` raised by the
validators in numibank_validators.py. -/
inductive BankError where
  | valueError (msg : String)
  | customerAlreadyExists (msg : String)
  | customerNotFound (msg : String)
  | invalidLoanAmount (msg : String)
  | invalidInterestRate (msg : String)
  | invalidLoanRepaymentAmount (msg : String)
  | loanNotFound (msg : String)
  | customerHasOutstandingLoan (msg : String)
  | numiBankError (msg : String)
  deriving DecidableEq, Repr

/-- Configuration constants consumed by models.py and bank.py. -/
structure Constants where
  MINIMUM_INTEREST_RATE : ℚ
  MAXIMUM_INTEREST_RATE : ℚ
  MINIMUM_LOAN_AMOUNT : ℚ
  MAXIMUM_LOAN_AMOUNT : ℚ
  DEFAULT_INTEREST_RATE : ℚ
  deriving DecidableEq, Repr

/-- Modelled from the spec: the module `constants` is imported by
src/models.py and src/bank.py but its file is not under src/. Spec section
4.3 gives the interest-rate bounds defaults 0.0 to 1.0; the repository's
validator defaults and the historical bank variant use loan-amount bounds
10 to 100, and the historical bank variant defaults the interest rate to
0.0 (the spec notes the variants differ here; no claim depends on the
default's value, since every `lend` below passes the rate explicitly). -/
def constants : Constants :=
  { MINIMUM_INTEREST_RATE := 0
    MAXIMUM_INTEREST_RATE := 1
    MINIMUM_LOAN_AMOUNT := 10
    MAXIMUM_LOAN_AMOUNT := 100
    DEFAULT_INTEREST_RATE := 0 }

/-- Validator.is_positive from src/numibank_validators.py. It returns True
when the value is positive and raises `ValueError` otherwise (it never
returns False). -/
def is_positive (value : ℚ) : Except BankError Bool :=
  if value ≤ 0 then
    .error (.valueError
      (toString value ++ " is not a valid amount. Only positive values allowed."))
  else
    .ok true

/-- Validator.is_within_range from src/numibank_validators.py. It returns
True when `lower_bound ≤ value ≤ upper_bound` and raises `ValueError`
otherwise (it never returns False). -/
def is_within_range (value lower_bound upper_bound : ℚ) : Except BankError Bool :=
  if value < lower_bound ∨ upper_bound < value then
    .error (.valueError
      (toString value ++ " must be between " ++ toString lower_bound ++
        " and " ++ toString upper_bound ++ "."))
  else
    .ok true

/-- Customer dataclass from src/models.py: a name plus the uuid4-generated
unique id. -/
structure Customer where
  name : String
  id : String
  deriving DecidableEq, Repr

/-- Loan object state from src/models.py: owning customer, principal
amount, interest rate, and the internal repayment list. -/
structure Loan where
  customer : Customer
  amount : ℚ
  interest_rate : ℚ
  repayments : List ℚ
  deriving DecidableEq, Repr

/-- Loan.__init__ from src/models.py. The rate check runs first, then the
amount check; both go through `is_within_range`, whose failure raises
`ValueError` before the `InvalidInterestRateError` and
`InvalidLoanAmountError` branches can fire (those branches are kept here,
exactly as in the source, although they are unreachable). The Python
`isinstance(customer, Customer)` check always passes in this typed
embedding, so the `NumiBankError` branch is not represented. -/
def Loan.init (c : Constants) (customer : Customer) (amount interest_rate : ℚ) :
    Except BankError Loan :=
  match is_within_range interest_rate c.MINIMUM_INTEREST_RATE c.MAXIMUM_INTEREST_RATE with
  | .error e => .error e
  | .ok rate_ok =>
    if rate_ok then
      match is_within_range amount c.MINIMUM_LOAN_AMOUNT c.MAXIMUM_LOAN_AMOUNT with
      | .error e => .error e
      | .ok amount_ok =>
        if !amount_ok then
          .error (.invalidLoanAmount
            ("Loan amount must be between " ++ toString c.MINIMUM_LOAN_AMOUNT ++
              " and " ++ toString c.MAXIMUM_LOAN_AMOUNT))
        else
          .ok { customer := customer, amount := amount,
                interest_rate := interest_rate, repayments := [] }
    else
      .error (.invalidInterestRate
        ("Interest rate must be between " ++ toString c.MINIMUM_INTEREST_RATE ++
          " and " ++ toString c.MAXIMUM_INTEREST_RATE))

/-- Loan.total_repayments property from src/models.py. -/
def Loan.total_repayments (l : Loan) : ℚ :=
  l.repayments.sum

/-- Loan.outstanding_debt property from src/models.py: the principal when
no repayments are recorded, otherwise principal plus simple interest minus
total repayments. -/
def Loan.outstanding_debt (l : Loan) : ℚ :=
  if l.repayments.isEmpty then
    l.amount
  else
    l.amount + l.amount * l.interest_rate - l.total_repayments

/-- Loan.add_repayment from src/models.py. The positivity check goes
through `is_positive`, whose failure raises `ValueError` before the
`InvalidLoanRepaymentAmountError "Amount must be positive"` branch can
fire (the branch is kept, exactly as in the source, although it is
unreachable). A repayment exceeding the current outstanding debt is
rejected before the list is touched. -/
def Loan.add_repayment (l : Loan) (amount : ℚ) : Except BankError Loan :=
  match is_positive amount with
  | .error e => .error e
  | .ok amount_ok =>
    if !amount_ok then
      .error (.invalidLoanRepaymentAmount "Amount must be positive")
    else if l.outstanding_debt < amount then
      .error (.invalidLoanRepaymentAmount "Amount exceeds outstanding debt")
    else
      .ok { l with repayments := l.repayments ++ [amount] }

/-- Lookup in a Python dict embedded as an insertion-ordered association
list. -/
def findEntry {α : Type} (key : String) : List (String × α) → Option α
  | [] => none
  | (k, v) :: rest => if k = key then some v else findEntry key rest

/-- Python dict assignment `d[key] = val`: replaces the value in place when
the key is present, otherwise appends the new entry at the end. -/
def setEntry {α : Type} (key : String) (val : α) : List (String × α) → List (String × α)
  | [] => [(key, val)]
  | (k, v) :: rest =>
    if k = key then (k, val) :: rest else (k, v) :: setEntry key val rest

/-- NumiBank state from src/bank.py: the customer registry and the loan
registry, both keyed by customer id. -/
structure NumiBank where
  customers : List (String × Customer)
  loans : List (String × Loan)
  deriving DecidableEq, Repr

/-- NumiBank.create_customer from src/bank.py. The uuid4-generated fresh id
is passed explicitly, standing for the value the generator returns. -/
def NumiBank.create_customer (b : NumiBank) (fresh_id name : String) :
    NumiBank × Customer :=
  let customer : Customer := { name := name, id := fresh_id }
  ({ b with customers := setEntry customer.id customer b.customers }, customer)

/-- NumiBank._get_customer from src/bank.py. -/
def NumiBank.get_customer (b : NumiBank) (customer_id : String) :
    Except BankError Customer :=
  match findEntry customer_id b.customers with
  | some customer => .ok customer
  | none =>
    .error (.customerNotFound
      ("Customer with ID " ++ customer_id ++ " does not exist"))

/-- NumiBank.lend from src/bank.py: customer lookup, outstanding-loan
check, then Loan construction and registration. On success the new bank
state and the loan are returned. -/
def NumiBank.lend (c : Constants) (b : NumiBank) (customer_id : String)
    (amount interest_rate : ℚ) : Except BankError (NumiBank × Loan) :=
  match b.get_customer customer_id with
  | .error e => .error e
  | .ok customer =>
    if (findEntry customer_id b.loans).isSome then
      .error (.customerHasOutstandingLoan
        ("Customer with ID " ++ customer_id ++ " already has an outstanding loan"))
    else
      match Loan.init c customer amount interest_rate with
      | .error e => .error e
      | .ok loan =>
        .ok ({ b with loans := setEntry customer_id loan b.loans }, loan)

/-- NumiBank.repay from src/bank.py: customer lookup, loan lookup, then
delegation to Loan.add_repayment; the in-place mutation of the stored loan
is embedded as updating its registry entry. -/
def NumiBank.repay (b : NumiBank) (customer_id : String) (amount : ℚ) :
    Except BankError NumiBank :=
  match b.get_customer customer_id with
  | .error e => .error e
  | .ok customer =>
    match findEntry customer_id b.loans with
    | none =>
      .error (.loanNotFound
        ("Customer with ID " ++ customer.id ++ " does not have an outstanding loan"))
    | some loan =>
      match loan.add_repayment amount with
      | .error e => .error e
      | .ok updated =>
        .ok { b with loans := setEntry customer_id updated b.loans }

/-! Concrete fixtures reused by several witnesses and counterexamples. -/

/-- Concrete customer used in witnesses, mirroring the test fixture. -/
def cu0 : Customer := { name := "Muniu Kariuki", id := "c1" }

/-- Second concrete customer used in witnesses. -/
def cu2 : Customer := { name := "John Doe", id := "c2" }

/-! Inversion and introduction lemmas for the embedded operations. -/

/-- Precondition under which is_positive returns instead of raising. -/
theorem is_positive_eq_ok {v : ℚ} (h : 0 < v) : is_positive v = .ok true := by
  unfold is_positive
  rw [if_neg (not_le.mpr h)]

/-- Characterisation of a non-raising is_positive call. -/
theorem is_positive_ok_iff {v : ℚ} {b : Bool} :
    is_positive v = .ok b ↔ 0 < v ∧ b = true := by
  unfold is_positive
  by_cases h : v ≤ 0
  · simp [h, not_lt.mpr h]
  · simp [h, not_le.mp h, eq_comm]

/-- Precondition under which is_within_range returns instead of raising. -/
theorem is_within_range_eq_ok {v lo hi : ℚ} (h1 : lo ≤ v) (h2 : v ≤ hi) :
    is_within_range v lo hi = .ok true := by
  unfold is_within_range
  rw [if_neg]
  push_neg
  exact ⟨h1, h2⟩

/-- Characterisation of a non-raising is_within_range call. -/
theorem is_within_range_ok_iff {v lo hi : ℚ} {b : Bool} :
    is_within_range v lo hi = .ok b ↔ lo ≤ v ∧ v ≤ hi ∧ b = true := by
  unfold is_within_range
  by_cases h : v < lo ∨ hi < v
  · have hne : ¬(lo ≤ v ∧ v ≤ hi ∧ b = true) := by
      rintro ⟨h1, h2, _⟩
      rcases h with h | h
      · exact absurd h1 (not_le.mpr h)
      · exact absurd h2 (not_le.mpr h)
    simp [h, hne]
  · push_neg at h
    simp [if_neg, h, h.1, h.2, eq_comm]

/-- Inversion of a successful Loan construction: the loan is fresh and both
inputs are within the configured bounds. -/
theorem Loan.init_ok {c : Constants} {cu : Customer} {P R : ℚ} {l : Loan}
    (h : Loan.init c cu P R = .ok l) :
    l = { customer := cu, amount := P, interest_rate := R, repayments := [] } ∧
      c.MINIMUM_INTEREST_RATE ≤ R ∧ R ≤ c.MAXIMUM_INTEREST_RATE ∧
      c.MINIMUM_LOAN_AMOUNT ≤ P ∧ P ≤ c.MAXIMUM_LOAN_AMOUNT := by
  unfold Loan.init at h
  cases hr : is_within_range R c.MINIMUM_INTEREST_RATE c.MAXIMUM_INTEREST_RATE with
  | error e => rw [hr] at h; cases h
  | ok rb =>
    rw [hr] at h
    obtain ⟨hr1, hr2, hrb⟩ := is_within_range_ok_iff.mp hr
    subst hrb
    simp only [if_true] at h
    cases ha : is_within_range P c.MINIMUM_LOAN_AMOUNT c.MAXIMUM_LOAN_AMOUNT with
    | error e => rw [ha] at h; cases h
    | ok ab =>
      rw [ha] at h
      obtain ⟨ha1, ha2, hab⟩ := is_within_range_ok_iff.mp ha
      subst hab
      exact ⟨(Except.ok.inj h).symm, hr1, hr2, ha1, ha2⟩

/-- Construction of a Loan succeeds on in-bounds inputs. -/
theorem Loan.init_eq_ok {c : Constants} {cu : Customer} {P R : ℚ}
    (hr1 : c.MINIMUM_INTEREST_RATE ≤ R) (hr2 : R ≤ c.MAXIMUM_INTEREST_RATE)
    (ha1 : c.MINIMUM_LOAN_AMOUNT ≤ P) (ha2 : P ≤ c.MAXIMUM_LOAN_AMOUNT) :
    Loan.init c cu P R =
      .ok { customer := cu, amount := P, interest_rate := R, repayments := [] } := by
  unfold Loan.init
  rw [is_within_range_eq_ok hr1 hr2, is_within_range_eq_ok ha1 ha2]
  rfl

/-- Outstanding debt of a freshly constructed loan is its principal. -/
theorem Loan.outstanding_debt_fresh (cu : Customer) (P R : ℚ) :
    Loan.outstanding_debt
      { customer := cu, amount := P, interest_rate := R, repayments := [] } = P := rfl

/-- Outstanding debt after appending one repayment. -/
theorem Loan.outstanding_debt_append (l : Loan) (A : ℚ) :
    Loan.outstanding_debt { l with repayments := l.repayments ++ [A] } =
      l.amount + l.amount * l.interest_rate - (l.repayments.sum + A) := by
  unfold Loan.outstanding_debt Loan.total_repayments
  simp

/-- A repayment with positive amount not exceeding the outstanding debt is
appended to the repayment list. -/
theorem Loan.add_repayment_eq_ok {l : Loan} {A : ℚ} (h1 : 0 < A)
    (h2 : A ≤ l.outstanding_debt) :
    l.add_repayment A = .ok { l with repayments := l.repayments ++ [A] } := by
  unfold Loan.add_repayment
  rw [is_positive_eq_ok h1]
  simp [not_lt.mpr h2]

/-- Inversion of a successful add_repayment call. -/
theorem Loan.add_repayment_ok {l l' : Loan} {A : ℚ}
    (h : l.add_repayment A = .ok l') :
    0 < A ∧ A ≤ l.outstanding_debt ∧
      l' = { l with repayments := l.repayments ++ [A] } := by
  unfold Loan.add_repayment at h
  cases hp : is_positive A with
  | error e => rw [hp] at h; cases h
  | ok b =>
    rw [hp] at h
    obtain ⟨hA, hb⟩ := is_positive_ok_iff.mp hp
    subst hb
    have h2 : (if l.outstanding_debt < A then
          (.error (.invalidLoanRepaymentAmount "Amount exceeds outstanding debt") :
            Except BankError Loan)
        else .ok { l with repayments := l.repayments ++ [A] }) = .ok l' := h
    by_cases hd : l.outstanding_debt < A
    · rw [if_pos hd] at h2; cases h2
    · rw [if_neg hd] at h2
      exact ⟨hA, not_lt.mp hd, (Except.ok.inj h2).symm⟩

/-- Looking up the key just written finds the written value. -/
theorem findEntry_setEntry_self {α : Type} (key : String) (val : α)
    (m : List (String × α)) : findEntry key (setEntry key val m) = some val := by
  induction m with
  | nil => simp [findEntry, setEntry]
  | cons hd tl ih =>
    obtain ⟨k, v⟩ := hd
    by_cases h : k = key
    · simp [findEntry, setEntry, h]
    · simp [findEntry, setEntry, h, ih]

/-- Writing one key leaves the lookup of every other key unchanged. -/
theorem findEntry_setEntry_ne {α : Type} {key other : String} (val : α)
    (m : List (String × α)) (h : other ≠ key) :
    findEntry other (setEntry key val m) = findEntry other m := by
  induction m with
  | nil =>
    have hko : ¬key = other := fun he => h he.symm
    simp [findEntry, setEntry, hko]
  | cons hd tl ih =>
    obtain ⟨k, v⟩ := hd
    by_cases hk : k = key
    · subst hk
      have hko : ¬k = other := fun he => h he.symm
      simp [findEntry, setEntry, hko]
    · rw [setEntry, if_neg hk, findEntry, findEntry]
      by_cases ho : k = other
      · rw [if_pos ho, if_pos ho]
      · rw [if_neg ho, if_neg ho]
        exact ih

/-- Writing a key that is already present leaves the key sequence of the
dict unchanged. -/
theorem map_fst_setEntry_of_find_some {α : Type} {key : String} {w : α}
    (val : α) (m : List (String × α)) (h : findEntry key m = some w) :
    (setEntry key val m).map Prod.fst = m.map Prod.fst := by
  induction m with
  | nil => simp [findEntry] at h
  | cons hd tl ih =>
    obtain ⟨k, v⟩ := hd
    by_cases hk : k = key
    · simp [setEntry, hk]
    · rw [findEntry, if_neg hk] at h
      simp [setEntry, hk, ih h]

/-- Writing an absent key appends it at the end of the key sequence. -/
theorem map_fst_setEntry_of_find_none {α : Type} {key : String}
    (val : α) (m : List (String × α)) (h : findEntry key m = none) :
    (setEntry key val m).map Prod.fst = m.map Prod.fst ++ [key] := by
  induction m with
  | nil => simp [setEntry]
  | cons hd tl ih =>
    obtain ⟨k, v⟩ := hd
    by_cases hk : k = key
    · rw [findEntry, if_pos hk] at h
      cases h
    · rw [findEntry, if_neg hk] at h
      simp [setEntry, hk, ih h]

/-- Inversion of a successful repay call on the bank: the customer is
registered, the loan is found, the repayment is accepted, and the only
state change is the updated loan entry. -/
theorem NumiBank.repay_ok {b b' : NumiBank} {cid : String} {A : ℚ}
    (h : b.repay cid A = .ok b') :
    ∃ loan updated, findEntry cid b.loans = some loan ∧
      loan.add_repayment A = .ok updated ∧
      b' = { b with loans := setEntry cid updated b.loans } := by
  unfold NumiBank.repay NumiBank.get_customer at h
  cases hc : findEntry cid b.customers with
  | none => rw [hc] at h; cases h
  | some customer =>
    rw [hc] at h
    cases hl : findEntry cid b.loans with
    | none => rw [hl] at h; cases h
    | some loan =>
      rw [hl] at h
      have h2 : (match loan.add_repayment A with
          | Except.error e => (Except.error e : Except BankError NumiBank)
          | Except.ok updated =>
            Except.ok { b with loans := setEntry cid updated b.loans }) =
          Except.ok b' := h
      cases hr : loan.add_repayment A with
      | error e => rw [hr] at h2; cases h2
      | ok updated =>
        rw [hr] at h2
        exact ⟨loan, updated, rfl, hr, (Except.ok.inj h2).symm⟩

/-- Inversion of a successful lend call on the bank: the customer is
registered, no loan was registered under the id, the loan was constructed
from the in-bounds inputs, and the only state change is the new loan
entry. -/
theorem NumiBank.lend_ok {c : Constants} {b b' : NumiBank} {cid : String}
    {amount rate : ℚ} {loan : Loan}
    (h : NumiBank.lend c b cid amount rate = .ok (b', loan)) :
    findEntry cid b.loans = none ∧
      ∃ customer, findEntry cid b.customers = some customer ∧
        Loan.init c customer amount rate = .ok loan ∧
        b' = { b with loans := setEntry cid loan b.loans } := by
  unfold NumiBank.lend NumiBank.get_customer at h
  cases hc : findEntry cid b.customers with
  | none => rw [hc] at h; cases h
  | some customer =>
    rw [hc] at h
    cases hl : findEntry cid b.loans with
    | none =>
      rw [hl] at h
      have h2 : (match Loan.init c customer amount rate with
          | Except.error e => (Except.error e : Except BankError (NumiBank × Loan))
          | Except.ok newLoan =>
            Except.ok ({ b with loans := setEntry cid newLoan b.loans }, newLoan)) =
          Except.ok (b', loan) := h
      cases hi : Loan.init c customer amount rate with
      | error e => rw [hi] at h2; cases h2
      | ok newLoan =>
        rw [hi] at h2
        have h3 := Except.ok.inj h2
        have hb : b' = { b with loans := setEntry cid newLoan b.loans } :=
          (congrArg Prod.fst h3).symm
        have hln : newLoan = loan := congrArg Prod.snd h3
        subst hln
        exact ⟨rfl, customer, rfl, hi, hb⟩
    | some other =>
      rw [hl] at h
      cases h

/-! Claim theorems. -/

/-- Claim C1, counterexample: with the configured bounds, the loan of
principal 10 at rate 1 is validly constructed, the amount 15 satisfies
0 < 15 ≤ 10 * (1 + 1), yet add_repayment on the fresh loan rejects it,
because a fresh loan's outstanding_debt is the principal 10, not
principal times (1 + rate). -/
theorem C1_counterexample :
    Loan.init constants cu0 10 1 =
      .ok { customer := cu0, amount := 10, interest_rate := 1, repayments := [] } ∧
    (0 : ℚ) < 15 ∧ (15 : ℚ) ≤ 10 * (1 + 1) ∧
    Loan.add_repayment
        { customer := cu0, amount := 10, interest_rate := 1, repayments := [] } 15 =
      .error (.invalidLoanRepaymentAmount "Amount exceeds outstanding debt") :=
  ⟨rfl, by norm_num, by norm_num, rfl⟩

/-- Claim C1 (amended): for every loan constructed with valid principal P
and valid rate R, and every repayment amount A with 0 < A ≤ P (the fresh
loan's outstanding debt), add_repayment A on the fresh loan succeeds, and
afterwards outstanding_debt equals P + P*R - A and total_repayments
equals A. -/
theorem C1_fresh_repayment_amended (c : Constants) (cu : Customer) (P R A : ℚ)
    (l : Loan) (hinit : Loan.init c cu P R = .ok l) (hA : 0 < A) (hAP : A ≤ P) :
    ∃ l', l.add_repayment A = .ok l' ∧
      l'.outstanding_debt = P + P * R - A ∧ l'.total_repayments = A := by
  obtain ⟨hl, _, _, _, _⟩ := Loan.init_ok hinit
  subst hl
  have hstep := Loan.add_repayment_eq_ok
    (l := { customer := cu, amount := P, interest_rate := R, repayments := [] })
    hA (by rw [Loan.outstanding_debt_fresh]; exact hAP)
  refine ⟨_, hstep, ?_, ?_⟩
  · rw [Loan.outstanding_debt_append]
    simp
  · unfold Loan.total_repayments
    simp

/-- Claim C1 witness: the amended statement at principal 10, rate 1,
repayment 5. -/
theorem C1_fresh_repayment_amended_witness :
    ∃ l', Loan.add_repayment
        { customer := cu0, amount := 10, interest_rate := 1, repayments := [] } 5 = .ok l' ∧
      l'.outstanding_debt = 10 + 10 * 1 - 5 ∧ l'.total_repayments = 5 :=
  C1_fresh_repayment_amended constants cu0 10 1 5
    { customer := cu0, amount := 10, interest_rate := 1, repayments := [] }
    rfl (by norm_num) (by norm_num)

/-- Claim C2: the spec says is_positive and is_within_range are pure
boolean predicates that never raise and return false on failing input; the
code instead raises ValueError on every failing input. This theorem
evaluates the code at such inputs: is_positive on 0 and on -1 raises, and
is_within_range raises on a value outside the bounds. -/
theorem C2_validator_raises_valueerror :
    is_positive 0 =
      .error (.valueError "0 is not a valid amount. Only positive values allowed.") ∧
    is_positive (-1) =
      .error (.valueError "-1 is not a valid amount. Only positive values allowed.") ∧
    is_within_range 2 0 1 = .error (.valueError "2 must be between 0 and 1.") ∧
    is_within_range 5 10 100 = .error (.valueError "5 must be between 10 and 100.") :=
  ⟨rfl, rfl, rfl, rfl⟩

/-- Claim C3: the spec says an out-of-range rate fails the constructor with
InvalidInterestRateError and an in-range rate with out-of-range principal
fails with InvalidLoanAmountError; the code instead propagates the
ValueError raised inside Validator.is_within_range in both cases, so those
two error branches are dead. This theorem evaluates the constructor at a
rate above the maximum, and at a valid rate with a principal below the
minimum and above the maximum. -/
theorem C3_loan_init_raises_valueerror :
    Loan.init constants cu0 50 2 = .error (.valueError "2 must be between 0 and 1.") ∧
    Loan.init constants cu0 5 0 = .error (.valueError "5 must be between 10 and 100.") ∧
    Loan.init constants cu0 101 0 =
      .error (.valueError "101 must be between 10 and 100.") :=
  ⟨rfl, rfl, rfl⟩

/-- Claim C4: the spec says add_repayment on an amount ≤ 0 fails with
InvalidLoanRepaymentAmountError "Amount must be positive"; the code
instead propagates the ValueError raised inside Validator.is_positive, so
that error branch is dead. This theorem evaluates add_repayment at amount
0 on a fresh loan and at a negative amount on a loan with a prior
repayment. -/
theorem C4_nonpositive_repayment_raises_valueerror :
    Loan.add_repayment
        { customer := cu0, amount := 10, interest_rate := 0, repayments := [] } 0 =
      .error (.valueError "0 is not a valid amount. Only positive values allowed.") ∧
    Loan.add_repayment
        { customer := cu0, amount := 100, interest_rate := 1, repayments := [2] } (-3) =
      .error (.valueError "-3 is not a valid amount. Only positive values allowed.") :=
  ⟨rfl, rfl⟩

/-- Claim C5: for every loan in every state and every positive amount
strictly above the current outstanding debt, add_repayment fails with
InvalidLoanRepaymentAmountError "Amount exceeds outstanding debt" and
yields no successor state — the raise happens before the append, so the
repayment sequence is exactly what it was before the call. -/
theorem C5_overpayment_rejected (l : Loan) (A : ℚ) (hpos : 0 < A)
    (hgt : l.outstanding_debt < A) :
    l.add_repayment A =
      .error (.invalidLoanRepaymentAmount "Amount exceeds outstanding debt") ∧
    ∀ l', l.add_repayment A ≠ .ok l' := by
  have he : l.add_repayment A =
      .error (.invalidLoanRepaymentAmount "Amount exceeds outstanding debt") := by
    unfold Loan.add_repayment
    rw [is_positive_eq_ok hpos]
    simp [hgt]
  refine ⟨he, fun l' hok => ?_⟩
  rw [he] at hok
  cases hok

/-- Claim C5 witness: repaying 11 against a fresh loan of principal 10 at
rate 0 (outstanding debt 10) is rejected with the exceeds-debt error. -/
theorem C5_overpayment_rejected_witness :
    Loan.add_repayment
        { customer := cu0, amount := 10, interest_rate := 0, repayments := [] } 11 =
      .error (.invalidLoanRepaymentAmount "Amount exceeds outstanding debt") ∧
    ∀ l', Loan.add_repayment
        { customer := cu0, amount := 10, interest_rate := 0, repayments := [] } 11 ≠
      .ok l' :=
  C5_overpayment_rejected
    { customer := cu0, amount := 10, interest_rate := 0, repayments := [] } 11
    (by norm_num) (by norm_num [Loan.outstanding_debt])

/-- Claim C6: for loans over nonnegative configured bounds, the invariant
sum(repayments) ≤ principal * (1 + rate) holds after construction and is
preserved by every successful add_repayment; a failed add_repayment
returns only an error, so it preserves every invariant of the state. -/
theorem C6_repayment_invariant (c : Constants)
    (hmin : 0 ≤ c.MINIMUM_LOAN_AMOUNT) (hrate : 0 ≤ c.MINIMUM_INTEREST_RATE) :
    (∀ (cu : Customer) (P R : ℚ) (l : Loan), Loan.init c cu P R = .ok l →
      l.repayments.sum ≤ l.amount * (1 + l.interest_rate)) ∧
    (∀ (l : Loan) (A : ℚ) (l' : Loan), 0 ≤ l.amount → 0 ≤ l.interest_rate →
      l.repayments.sum ≤ l.amount * (1 + l.interest_rate) →
      l.add_repayment A = .ok l' →
      l'.repayments.sum ≤ l'.amount * (1 + l'.interest_rate)) := by
  constructor
  · intro cu P R l hinit
    obtain ⟨hl, hr1, _, ha1, _⟩ := Loan.init_ok hinit
    subst hl
    have hP : (0 : ℚ) ≤ P := le_trans hmin ha1
    have hR : (0 : ℚ) ≤ R := le_trans hrate hr1
    have : (0 : ℚ) ≤ P * (1 + R) := mul_nonneg hP (by linarith)
    simpa using this
  · intro l A l' hP hR hinv hok
    obtain ⟨hA, hle, hl'⟩ := Loan.add_repayment_ok hok
    subst hl'
    simp only [List.sum_append, List.sum_cons, List.sum_nil, add_zero]
    by_cases hemp : l.repayments.isEmpty
    · have hnil : l.repayments = [] := List.isEmpty_iff.mp hemp
      have hdebt : l.outstanding_debt = l.amount := by
        unfold Loan.outstanding_debt
        rw [if_pos hemp]
      rw [hdebt] at hle
      have hPR : (0 : ℚ) ≤ l.amount * l.interest_rate := mul_nonneg hP hR
      rw [hnil]
      simp only [List.sum_nil, zero_add]
      nlinarith
    · have hdebt : l.outstanding_debt =
          l.amount + l.amount * l.interest_rate - l.repayments.sum := by
        unfold Loan.outstanding_debt Loan.total_repayments
        rw [if_neg hemp]
      rw [hdebt] at hle
      nlinarith

/-- Claim C6 witness: the invariant statement instantiated at the
configured constants, whose bounds are nonnegative. -/
theorem C6_repayment_invariant_witness :
    (∀ (cu : Customer) (P R : ℚ) (l : Loan), Loan.init constants cu P R = .ok l →
      l.repayments.sum ≤ l.amount * (1 + l.interest_rate)) ∧
    (∀ (l : Loan) (A : ℚ) (l' : Loan), 0 ≤ l.amount → 0 ≤ l.interest_rate →
      l.repayments.sum ≤ l.amount * (1 + l.interest_rate) →
      l.add_repayment A = .ok l' →
      l'.repayments.sum ≤ l'.amount * (1 + l'.interest_rate)) :=
  C6_repayment_invariant constants (by norm_num [constants]) (by norm_num [constants])

/-- Claim C7: lend on a customer who is registered and already has a
registered loan fails with CustomerHasOutstandingLoanError — the check
looks only at the presence of the loan entry, not at its outstanding debt,
so a zero-debt loan blocks lending exactly the same; the raise happens
before any registry write, and only the error is returned, so the loan
registry is unchanged. -/
theorem C7_lend_existing_loan_fails (c : Constants) (b : NumiBank)
    (cid : String) (amount rate : ℚ)
    (hcust : (findEntry cid b.customers).isSome = true)
    (hloan : (findEntry cid b.loans).isSome = true) :
    NumiBank.lend c b cid amount rate =
      .error (.customerHasOutstandingLoan
        ("Customer with ID " ++ cid ++ " already has an outstanding loan")) := by
  unfold NumiBank.lend NumiBank.get_customer
  obtain ⟨cu, hcu⟩ := Option.isSome_iff_exists.mp hcust
  rw [hcu]
  cases hl : findEntry cid b.loans with
  | none => rw [hl] at hloan; cases hloan
  | some lo => rfl

/-- Claim C7 witness: a customer whose registered loan has outstanding debt
0 (principal 10, rate 0, fully repaid) still cannot be lent to. -/
theorem C7_lend_existing_loan_fails_witness :
    Loan.outstanding_debt
        { customer := cu0, amount := 10, interest_rate := 0, repayments := [10] } = 0 ∧
    NumiBank.lend constants
        { customers := [("c1", cu0)],
          loans := [("c1", { customer := cu0, amount := 10, interest_rate := 0,
                             repayments := [10] })] }
        "c1" 10 0 =
      .error (.customerHasOutstandingLoan
        ("Customer with ID " ++ "c1" ++ " already has an outstanding loan")) :=
  ⟨by norm_num [Loan.outstanding_debt, Loan.total_repayments],
    C7_lend_existing_loan_fails constants
      { customers := [("c1", cu0)],
        loans := [("c1", { customer := cu0, amount := 10, interest_rate := 0,
                           repayments := [10] })] }
      "c1" 10 0 rfl rfl⟩

/-- Claim C8: every loan constructed with valid principal P and valid rate
R starts with an empty repayment sequence, and its outstanding_debt then
equals P exactly. -/
theorem C8_fresh_loan_debt_eq_principal (c : Constants) (cu : Customer)
    (P R : ℚ) (l : Loan) (h : Loan.init c cu P R = .ok l) :
    l.repayments = [] ∧ l.outstanding_debt = P := by
  obtain ⟨hl, _, _, _, _⟩ := Loan.init_ok h
  subst hl
  exact ⟨rfl, rfl⟩

/-- Claim C8 witness: the freshly constructed loan of principal 10 at rate
1 has outstanding debt 10 (not 20). -/
theorem C8_fresh_loan_debt_eq_principal_witness :
    Loan.repayments
        { customer := cu0, amount := 10, interest_rate := 1, repayments := [] } = [] ∧
    Loan.outstanding_debt
        { customer := cu0, amount := 10, interest_rate := 1, repayments := [] } = 10 :=
  C8_fresh_loan_debt_eq_principal constants cu0 10 1
    { customer := cu0, amount := 10, interest_rate := 1, repayments := [] } rfl

/-- Claim C9: a successful add_repayment can strictly increase
outstanding_debt: on a validly constructed fresh loan with 0 < A < P*R
(whence R > 0), the repayment is accepted — A < P*R ≤ P, the fresh debt —
and the debt afterwards, P + P*R - A, strictly exceeds the debt before,
P. Hence outstanding_debt is not monotonically non-increasing under
successful repayments. -/
theorem C9_successful_repayment_can_increase_debt (c : Constants)
    (cu : Customer) (P R A : ℚ) (l : Loan)
    (hinit : Loan.init c cu P R = .ok l)
    (hmax : c.MAXIMUM_INTEREST_RATE ≤ 1)
    (hP : 0 < P) (hA : 0 < A) (hAR : A < P * R) :
    ∃ l', l.add_repayment A = .ok l' ∧ l.outstanding_debt = P ∧
      l'.outstanding_debt = P + P * R - A ∧
      l.outstanding_debt < l'.outstanding_debt := by
  obtain ⟨hl, _, hr2, _, _⟩ := Loan.init_ok hinit
  subst hl
  have hR1 : R ≤ 1 := le_trans hr2 hmax
  have hPR : P * R ≤ P := by nlinarith
  have hAP : A ≤ P := le_of_lt (lt_of_lt_of_le hAR hPR)
  have hstep := Loan.add_repayment_eq_ok
    (l := { customer := cu, amount := P, interest_rate := R, repayments := [] })
    hA (by rw [Loan.outstanding_debt_fresh]; exact hAP)
  refine ⟨_, hstep, Loan.outstanding_debt_fresh cu P R, ?_, ?_⟩
  · rw [Loan.outstanding_debt_append]
    simp
  · rw [Loan.outstanding_debt_fresh, Loan.outstanding_debt_append]
    simp only [List.sum_nil, zero_add]
    linarith

/-- Claim C9 witness: on the fresh loan of principal 10 at rate 1, repaying
5 succeeds and raises the outstanding debt from 10 to 15. -/
theorem C9_successful_repayment_can_increase_debt_witness :
    ∃ l', Loan.add_repayment
        { customer := cu0, amount := 10, interest_rate := 1, repayments := [] } 5 =
        .ok l' ∧
      Loan.outstanding_debt
        { customer := cu0, amount := 10, interest_rate := 1, repayments := [] } = 10 ∧
      l'.outstanding_debt = 10 + 10 * 1 - 5 ∧
      Loan.outstanding_debt
          { customer := cu0, amount := 10, interest_rate := 1, repayments := [] } <
        l'.outstanding_debt :=
  C9_successful_repayment_can_increase_debt constants cu0 10 1 5
    { customer := cu0, amount := 10, interest_rate := 1, repayments := [] }
    rfl (by norm_num [constants]) (by norm_num) (by norm_num) (by norm_num)

/-- Claim C10: frame conditions. A successful repay changes state only by
appending the amount to that customer's loan entry: the customer registry,
the key sequence of the loan registry, and every other loan entry are
unchanged. A successful lend changes state only by adding the single new
loan entry under the customer id (which had none), leaving the customer
registry and every pre-existing loan entry unchanged. -/
theorem C10_frame_conditions (b b' : NumiBank) (cid : String) (A : ℚ)
    (c : Constants) (b2 b2' : NumiBank) (cid2 : String) (amt rate : ℚ)
    (ln : Loan)
    (hrepay : b.repay cid A = .ok b')
    (hlend : NumiBank.lend c b2 cid2 amt rate = .ok (b2', ln)) :
    (b'.customers = b.customers ∧
      (∃ loan, findEntry cid b.loans = some loan ∧
        findEntry cid b'.loans =
          some { loan with repayments := loan.repayments ++ [A] }) ∧
      (∀ k, k ≠ cid → findEntry k b'.loans = findEntry k b.loans) ∧
      b'.loans.map Prod.fst = b.loans.map Prod.fst) ∧
    (b2'.customers = b2.customers ∧
      findEntry cid2 b2.loans = none ∧
      findEntry cid2 b2'.loans = some ln ∧
      (∀ k, k ≠ cid2 → findEntry k b2'.loans = findEntry k b2.loans) ∧
      b2'.loans.map Prod.fst = b2.loans.map Prod.fst ++ [cid2]) := by
  obtain ⟨loan, updated, hfind, hadd, hb'⟩ := NumiBank.repay_ok hrepay
  obtain ⟨hA, hle, hupd⟩ := Loan.add_repayment_ok hadd
  subst hupd
  subst hb'
  obtain ⟨hnone, cu, hcu, hinit, hb2'⟩ := NumiBank.lend_ok hlend
  subst hb2'
  refine ⟨⟨rfl, ⟨loan, hfind, findEntry_setEntry_self cid _ b.loans⟩,
      fun k hk => findEntry_setEntry_ne _ b.loans hk,
      map_fst_setEntry_of_find_some _ b.loans hfind⟩,
    rfl, hnone, findEntry_setEntry_self cid2 ln b2.loans,
    fun k hk => findEntry_setEntry_ne ln b2.loans hk,
    map_fst_setEntry_of_find_none ln b2.loans hnone⟩

/-- Claim C10 witness: a concrete repay (5 against the loan of customer c1)
and a concrete lend (20 at rate 1 to customer c2) with the frame conditions
stated for the resulting banks. -/
theorem C10_frame_conditions_witness :
    (({ customers := [("c1", cu0)],
        loans := [("c1", { customer := cu0, amount := 10, interest_rate := 0,
                           repayments := [5] })] } : NumiBank).customers =
      ({ customers := [("c1", cu0)],
         loans := [("c1", { customer := cu0, amount := 10, interest_rate := 0,
                            repayments := [] })] } : NumiBank).customers ∧
      (∃ loan, findEntry "c1"
          ({ customers := [("c1", cu0)],
             loans := [("c1", { customer := cu0, amount := 10, interest_rate := 0,
                                repayments := [] })] } : NumiBank).loans = some loan ∧
        findEntry "c1"
          ({ customers := [("c1", cu0)],
             loans := [("c1", { customer := cu0, amount := 10, interest_rate := 0,
                                repayments := [5] })] } : NumiBank).loans =
          some { loan with repayments := loan.repayments ++ [5] }) ∧
      (∀ k, k ≠ "c1" →
        findEntry k
          ({ customers := [("c1", cu0)],
             loans := [("c1", { customer := cu0, amount := 10, interest_rate := 0,
                                repayments := [5] })] } : NumiBank).loans =
        findEntry k
          ({ customers := [("c1", cu0)],
             loans := [("c1", { customer := cu0, amount := 10, interest_rate := 0,
                                repayments := [] })] } : NumiBank).loans) ∧
      (({ customers := [("c1", cu0)],
          loans := [("c1", { customer := cu0, amount := 10, interest_rate := 0,
                             repayments := [5] })] } : NumiBank).loans.map Prod.fst =
        ({ customers := [("c1", cu0)],
           loans := [("c1", { customer := cu0, amount := 10, interest_rate := 0,
                              repayments := [] })] } : NumiBank).loans.map Prod.fst)) ∧
    (({ customers := [("c1", cu0), ("c2", cu2)],
        loans := [("c1", { customer := cu0, amount := 10, interest_rate := 0,
                           repayments := [] }),
                  ("c2", { customer := cu2, amount := 20, interest_rate := 1,
                           repayments := [] })] } : NumiBank).customers =
      ({ customers := [("c1", cu0), ("c2", cu2)],
         loans := [("c1", { customer := cu0, amount := 10, interest_rate := 0,
                            repayments := [] })] } : NumiBank).customers ∧
      findEntry "c2"
        ({ customers := [("c1", cu0), ("c2", cu2)],
           loans := [("c1", { customer := cu0, amount := 10, interest_rate := 0,
                              repayments := [] })] } : NumiBank).loans = none ∧
      findEntry "c2"
        ({ customers := [("c1", cu0), ("c2", cu2)],
           loans := [("c1", { customer := cu0, amount := 10, interest_rate := 0,
                              repayments := [] }),
                     ("c2", { customer := cu2, amount := 20, interest_rate := 1,
                              repayments := [] })] } : NumiBank).loans =
        some { customer := cu2, amount := 20, interest_rate := 1, repayments := [] } ∧
      (∀ k, k ≠ "c2" →
        findEntry k
          ({ customers := [("c1", cu0), ("c2", cu2)],
             loans := [("c1", { customer := cu0, amount := 10, interest_rate := 0,
                                repayments := [] }),
                       ("c2", { customer := cu2, amount := 20, interest_rate := 1,
                                repayments := [] })] } : NumiBank).loans =
        findEntry k
          ({ customers := [("c1", cu0), ("c2", cu2)],
             loans := [("c1", { customer := cu0, amount := 10, interest_rate := 0,
                                repayments := [] })] } : NumiBank).loans) ∧
      (({ customers := [("c1", cu0), ("c2", cu2)],
          loans := [("c1", { customer := cu0, amount := 10, interest_rate := 0,
                             repayments := [] }),
                    ("c2", { customer := cu2, amount := 20, interest_rate := 1,
                             repayments := [] })] } : NumiBank).loans.map Prod.fst =
        ({ customers := [("c1", cu0), ("c2", cu2)],
           loans := [("c1", { customer := cu0, amount := 10, interest_rate := 0,
                              repayments := [] })] } : NumiBank).loans.map Prod.fst ++
          ["c2"])) :=
  C10_frame_conditions
    { customers := [("c1", cu0)],
      loans := [("c1", { customer := cu0, amount := 10, interest_rate := 0,
                         repayments := [] })] }
    { customers := [("c1", cu0)],
      loans := [("c1", { customer := cu0, amount := 10, interest_rate := 0,
                         repayments := [5] })] }
    "c1" 5 constants
    { customers := [("c1", cu0), ("c2", cu2)],
      loans := [("c1", { customer := cu0, amount := 10, interest_rate := 0,
                         repayments := [] })] }
    { customers := [("c1", cu0), ("c2", cu2)],
      loans := [("c1", { customer := cu0, amount := 10, interest_rate := 0,
                         repayments := [] }),
                ("c2", { customer := cu2, amount := 20, interest_rate := 1,
                         repayments := [] })] }
    "c2" 20 1
    { customer := cu2, amount := 20, interest_rate := 1, repayments := [] }
    rfl rfl

end Numibank
